import Mathlib

/-!
Shallow embedding of the device state and power management engine of the
OBS-Tally M5StickCPlus firmware (src/ESP32/M5StickCPlus/src/main.cpp).

Global mutable state (and the function-local static variables that survive
across calls) is modelled as an explicit state record threaded through each
function.  Network and hardware effects are modelled as oracle inputs
(HTTP outcomes, battery voltage in millivolts, charge current in
microamperes, the millisecond clock) and as explicit outputs (the list of
HTTP requests issued, the value driven onto the LED pin).  Battery voltage
is carried in integer millivolts: the firmware multiplies its float voltage
by 1000 and feeds the result to the integer map() routine, so all band
arithmetic below is over the same integers the firmware computes with.
-/

/-- Mirror of the firmware's global mutable state (main.cpp lines 137-187)
plus the static locals of updateBatteryStatus (wasChargingComplete,
lastDisconnectTime). -/
structure DeviceState where
  isPreview : Bool
  isProgram : Bool
  isRecording : Bool
  isStreaming : Bool
  serverConnected : Bool
  isConnected : Bool
  isRegistered : Bool
  configMode : Bool
  ledManuallyDisabled : Bool
  currentStatus : String
  deviceName : String
  assignedSource : String
  lastError : String
  batteryPercent : Nat
  deepSleepEnabled : Bool
  powerSaveMode : Bool
  displayDimmed : Bool
  lowBatteryMode : Bool
  successfulHeartbeats : Nat
  failedHeartbeats : Nat
  lastHeartbeatTime : Nat
  wasChargingComplete : Bool
  lastDisconnectTime : Nat
  deriving Repr, DecidableEq

/-- Initial values of the globals at boot (main.cpp lines 137-187). -/
def initialState : DeviceState where
  isPreview := false
  isProgram := false
  isRecording := false
  isStreaming := false
  serverConnected := false
  isConnected := false
  isRegistered := false
  configMode := false
  ledManuallyDisabled := false
  currentStatus := "INIT"
  deviceName := ""
  assignedSource := ""
  lastError := ""
  batteryPercent := 100
  deepSleepEnabled := true
  powerSaveMode := false
  displayDimmed := false
  lowBatteryMode := false
  successfulHeartbeats := 0
  failedHeartbeats := 0
  lastHeartbeatTime := 0
  wasChargingComplete := false
  lastDisconnectTime := 0

/-! ## Inbound push endpoint POST /api/tally (main.cpp lines 1282-1349) -/

/-- Parsed shape of an /api/tally JSON body as the handler reads it.
A field is some when present with the type the handler tests for.
recordingStatus and streamingStatus are some when the field is a JSON
object; the inner Option Bool is its active member (the handler defaults a
missing or non-bool active to false via the or-with-false idiom). -/
structure TallyPayload where
  status : Option String
  recordingStatus : Option (Option Bool)
  recording : Option Bool
  streamingStatus : Option (Option Bool)
  streaming : Option Bool
  obsConnected : Option Bool
  deviceName : Option String
  assignedSource : Option String
  deriving Repr, DecidableEq

/-- State update performed by the /api/tally handler on a successfully
parsed body (main.cpp lines 1288-1338).  The status comparisons mirror
doc-status == "Preview" and doc-status == "Live" || doc-status ==
"Program": a missing status compares unequal to every string. -/
def applyTallyPayload (p : TallyPayload) (s : DeviceState) : DeviceState :=
  let s := { s with
    isPreview := p.status == some "Preview"
    isProgram := (p.status == some "Live") || (p.status == some "Program") }
  let s := { s with
    isRecording :=
      match p.recordingStatus with
      | some active => active.getD false
      | none =>
        match p.recording with
        | some b => b
        | none => false }
  let s := { s with
    isStreaming :=
      match p.streamingStatus with
      | some active => active.getD false
      | none =>
        match p.streaming with
        | some b => b
        | none => false }
  let s := { s with serverConnected := p.obsConnected.getD true }
  let s :=
    match p.deviceName with
    | some n => { s with deviceName := n }
    | none => s
  match p.assignedSource with
  | some a => if a ≠ s.assignedSource then { s with assignedSource := a } else s
  | none => s

/-- Outcome of reading and parsing the request body: the handler first
tests for a plain body argument, then runs deserializeJson on it. -/
inductive TallyRequestBody where
  | noBody
  | malformed
  | parsed (p : TallyPayload)
  deriving Repr, DecidableEq

/-- HTTP response sent by a web handler. -/
structure HttpResponse where
  code : Nat
  body : String
  deriving Repr, DecidableEq

/-- The /api/tally POST handler (main.cpp lines 1282-1349): response sent
and resulting device state. -/
def apiTallyHandler (req : TallyRequestBody) (s : DeviceState) :
    HttpResponse × DeviceState :=
  match req with
  | .noBody => (⟨400, "\x7b\"error\":\"No data\"\x7d"⟩, s)
  | .malformed => (⟨400, "\x7b\"error\":\"Invalid JSON\"\x7d"⟩, s)
  | .parsed p => (⟨200, "\x7b\"success\":true\x7d"⟩, applyTallyPayload p s)

/-! ## Registration and heartbeat (main.cpp lines 1654-1847) -/

/-- Shape of the status field of a heartbeat response: a nested object
holding a status string, a direct string, or neither. -/
inductive HBStatusField where
  | objStatus (s : String)
  | strStatus (s : String)
  | absent
  deriving Repr, DecidableEq

/-- Parsed heartbeat response body (the fields sendHeartbeat reads). -/
structure HBResponse where
  status : HBStatusField
  assignedSource : Option String
  recording : Option Bool
  streaming : Option Bool
  deriving Repr, DecidableEq

/-- Status-string extraction of main.cpp lines 1745-1753: newStatus starts
empty and is filled from the nested or the direct shape. -/
def extractStatus : HBStatusField → String
  | .objStatus s => s
  | .strStatus s => s
  | .absent => ""

/-- Tally update from a non-empty heartbeat status string
(main.cpp lines 1755-1783). -/
def applyHBStatus (newStatus : String) (s : DeviceState) : DeviceState :=
  if newStatus.length > 0 then
    if newStatus == "Live" || newStatus == "Program" then
      { s with isProgram := true, isPreview := false, currentStatus := "LIVE" }
    else if newStatus == "Preview" then
      { s with isProgram := false, isPreview := true, currentStatus := "PREVIEW" }
    else
      { s with isProgram := false, isPreview := false, currentStatus := "IDLE" }
  else s

/-- Field updates from a successfully parsed heartbeat response body
(main.cpp lines 1744-1809). -/
def applyHBFields (r : HBResponse) (s : DeviceState) : DeviceState :=
  let s := applyHBStatus (extractStatus r.status) s
  let s :=
    match r.assignedSource with
    | some a => if a ≠ s.assignedSource then { s with assignedSource := a } else s
    | none => s
  let s :=
    match r.recording with
    | some b => if b ≠ s.isRecording then { s with isRecording := b } else s
    | none => s
  match r.streaming with
  | some b => if b ≠ s.isStreaming then { s with isStreaming := b } else s
  | none => s

/-- Handling of an HTTP 200 heartbeat response (main.cpp lines 1739-1822):
a parse failure skips the field update block, and the success bookkeeping
runs either way. -/
def applyHeartbeatBody (body : Option HBResponse) (s : DeviceState) : DeviceState :=
  let s :=
    match body with
    | some r => applyHBFields r s
    | none => s
  { s with
    isConnected := true
    serverConnected := true
    successfulHeartbeats := s.successfulHeartbeats + 1 }

/-- The registerDevice routine (main.cpp lines 1654-1700).  regResult is
the oracle outcome of the registration POST: none is a transport error
(non-positive httpCode), some n an HTTP status code. -/
def registerDevice (wifiUp hasServer : Bool) (regResult : Option Nat)
    (s : DeviceState) : DeviceState :=
  if !wifiUp || !hasServer then s
  else
    match regResult with
    | some n =>
      if n = 200 then
        { s with
          isRegistered := true
          isConnected := true
          serverConnected := true
          lastHeartbeatTime := 0 }
      else { s with isRegistered := false }
    | none => { s with isRegistered := false }

/-- HTTP requests a session routine can issue, in order of issue. -/
inductive HttpReq where
  | register
  | heartbeat
  deriving Repr, DecidableEq

/-- The sendHeartbeat routine (main.cpp lines 1702-1847).  hbResult is the
oracle outcome of the heartbeat POST (consulted only when the POST is
actually issued): none is a transport error, some (n, body) an HTTP status
n whose response body parsed to body (body is read only when n = 200).
Returns the new state and the list of HTTP requests issued. -/
def sendHeartbeat (wifiUp hasServer : Bool) (regResult : Option Nat)
    (hbResult : Option (Nat × Option HBResponse)) (now : Nat)
    (s : DeviceState) : DeviceState × List HttpReq :=
  if !wifiUp || !hasServer then (s, [])
  else
    let s1 :=
      if !s.isRegistered then registerDevice wifiUp hasServer regResult s else s
    let reqs : List HttpReq :=
      if !s.isRegistered then [HttpReq.register] else []
    if !s1.isRegistered then (s1, reqs)
    else
      let s2 :=
        match hbResult with
        | some (n, body) =>
          if n = 200 then applyHeartbeatBody body s1
          else if n = 404 then
            { s1 with
              isRegistered := false
              isConnected := false
              serverConnected := false
              failedHeartbeats := s1.failedHeartbeats + 1 }
          else
            { s1 with
              isConnected := false
              serverConnected := false
              failedHeartbeats := s1.failedHeartbeats + 1
              lastError := "Heartbeat failed: HTTP " ++ toString n }
        | none =>
          { s1 with
            isConnected := false
            serverConnected := false
            failedHeartbeats := s1.failedHeartbeats + 1
            lastError := "Heartbeat failed: transport error" }
      ({ s2 with lastHeartbeatTime := now }, reqs ++ [HttpReq.heartbeat])

/-! ## LED control (main.cpp lines 1850-1885) -/

/-- Static locals of updateLED: blink timestamp and logical LED state. -/
structure LedLocals where
  lastLEDBlink : Nat
  ledState : Bool
  deriving Repr, DecidableEq

/-- The updateLED routine (main.cpp lines 1850-1885).  The first component
is the value driven onto the LED pin during this call: some true is LED on
(pin LOW), some false is LED off (pin HIGH), none means the pin is left
untouched (the preview branch between blink edges).  The firmware's pin
polarity (LOW = on) is folded into the Bool. -/
def updateLED (now : Nat) (wifiUp : Bool) (s : DeviceState) (ls : LedLocals) :
    Option Bool × LedLocals :=
  if s.ledManuallyDisabled then
    (some false, { ls with ledState := false })
  else if !s.serverConnected || !wifiUp || s.configMode then
    (some false, { ls with ledState := false })
  else if s.isProgram then
    (some true, { ls with ledState := true })
  else if s.isPreview then
    if now - ls.lastLEDBlink > 500 then
      let nextLedState := !ls.ledState
      (some nextLedState, { lastLEDBlink := now, ledState := nextLedState })
    else (none, ls)
  else
    (some false, { ls with ledState := false })

/-! ## Battery monitor (main.cpp lines 2248-2358) -/

/-- Arduino integer map(x, inMin, inMax, outMin, outMax).  Every call site
in updateBatteryStatus is guarded so that inMin ≤ x, inMin < inMax and
outMin < outMax, where long division agrees with truncated natural
division, so the embedding uses Nat arithmetic. -/
def arduinoMap (x inMin inMax outMin outMax : Nat) : Nat :=
  (x - inMin) * (outMax - outMin) / (inMax - inMin) + outMin

/-- The voltage-band chain of updateBatteryStatus below 4.10 volts
(main.cpp lines 2300-2321), over integer millivolts. -/
def rawBandPercent (mV : Nat) : Nat :=
  if 3950 ≤ mV then arduinoMap mV 3950 4100 95 99
  else if 3800 ≤ mV then arduinoMap mV 3800 3950 85 95
  else if 3600 ≤ mV then arduinoMap mV 3600 3800 60 85
  else if 3400 ≤ mV then arduinoMap mV 3400 3600 30 60
  else if 3200 ≤ mV then arduinoMap mV 3200 3400 10 30
  else if 3000 ≤ mV then arduinoMap mV 3000 3200 0 10
  else 0

/-- The full newBatteryPercent computation of updateBatteryStatus
(main.cpp lines 2294-2323): the 4.1V-and-above case, the
maintain-full-charge / recently-disconnected override, the band chain, and
the final constrain to 0..100 (the lower clamp is vacuous over Nat). -/
def computeNewPercent (maintainOrRecent : Bool) (mV : Nat) : Nat :=
  min (if 4100 ≤ mV then 100
       else if maintainOrRecent then 100
       else rawBandPercent mV) 100

/-- The classifier's voltage-to-percent mapping in the absence of
charging-history effects: computeNewPercent with the
maintain-full-charge / recently-disconnected override off. -/
def batteryBandPercent (mV : Nat) : Nat := computeNewPercent false mV

/-- The anti-jitter smoothing step of updateBatteryStatus (main.cpp lines
2328-2341): a swing of more than 20 points to an exact 0 while the voltage
is still above 3.0V keeps the previous percent. -/
def smoothBatteryPercent (prev newP mV : Nat) : Nat :=
  if 20 < Nat.dist newP prev ∧ newP = 0 ∧ 3000 < mV then prev else newP

/-- The updateBatteryStatus routine (main.cpp lines 2248-2358).  Inputs:
the millisecond clock, the battery voltage in millivolts, and the charge
current in microamperes (the firmware compares its float milliamp reading
against 1.0, 0 and 15.0, hence against 1000, 0 and 15000 microamps).
An implausible voltage (below 2.5V or above 5.0V) returns early with the
fallback percent and deep sleep disabled, leaving the static locals
untouched; otherwise the static locals are updated before the smoothing
decision, exactly as in the source. -/
def updateBatteryStatus (now mV : Nat) (curMicroA : Int) (s : DeviceState) :
    DeviceState :=
  if mV < 2500 ∨ 5000 < mV then
    { s with batteryPercent := 50, deepSleepEnabled := false }
  else
    let isCharging : Bool := decide (1000 < curMicroA)
    let chargingComplete : Bool :=
      decide (4100 ≤ mV) && decide (0 < curMicroA) && decide (curMicroA < 15000)
    let recentlyDisconnected : Bool :=
      s.wasChargingComplete && !isCharging && !chargingComplete &&
        decide (3850 ≤ mV) && decide (mV < 4100)
    let lastDisc := if recentlyDisconnected then now else s.lastDisconnectTime
    let maintainFullCharge : Bool :=
      decide (now - lastDisc < 30000) && decide (3850 ≤ mV) && !isCharging
    let newP := computeNewPercent (maintainFullCharge || recentlyDisconnected) mV
    let s := { s with
      wasChargingComplete := chargingComplete
      lastDisconnectTime := lastDisc }
    { s with batteryPercent := smoothBatteryPercent s.batteryPercent newP mV }

/-! ## Power governor (main.cpp lines 2093-2198, 2398-2458, 2862-2894) -/

/-- The initPowerManagement routine (main.cpp lines 2093-2134), restricted
to the modelled state: the flag initialisation, the battery update, and the
final forced disable of deep sleep. -/
def initPowerManagement (now mV : Nat) (curMicroA : Int) (s : DeviceState) :
    DeviceState :=
  let s := { s with
    powerSaveMode := false
    displayDimmed := false
    deepSleepEnabled := false
    lowBatteryMode := false
    batteryPercent := 50 }
  let s := updateBatteryStatus now mV curMicroA s
  { s with deepSleepEnabled := false }

/-- The updatePowerState routine (main.cpp lines 2137-2198).  The static
locals lastPowerStateUpdate and lastBatteryUpdate are passed and returned
explicitly.  A call within 15 seconds of the previous accepted call
returns unchanged; a completed evaluation updates the battery at most
every 45 seconds, maintains the low-battery hysteresis flag, and
unconditionally forces the power-save, display-dim and deep-sleep flags
off. -/
def updatePowerState (now lastPowerStateUpdate lastBatteryUpdate mV : Nat)
    (curMicroA : Int) (s : DeviceState) : DeviceState × Nat × Nat :=
  if now - lastPowerStateUpdate < 15000 then
    (s, lastPowerStateUpdate, lastBatteryUpdate)
  else
    let (s, lastBatteryUpdate) :=
      if 45000 < now - lastBatteryUpdate then
        (updateBatteryStatus now mV curMicroA s, now)
      else (s, lastBatteryUpdate)
    let s :=
      if s.batteryPercent < 15 ∧ s.lowBatteryMode = false then
        { s with lowBatteryMode := true }
      else if 40 < s.batteryPercent ∧ s.lowBatteryMode = true then
        { s with lowBatteryMode := false }
      else s
    ({ s with
        powerSaveMode := false
        displayDimmed := false
        deepSleepEnabled := false }, now, lastBatteryUpdate)

/-- The preventRestartConditions routine (main.cpp lines 2862-2894),
restricted to the modelled state: force the power-save and display-dim
flags off when either is set, and force deep sleep off when set. -/
def preventRestartConditions (s : DeviceState) : DeviceState :=
  let s :=
    if s.powerSaveMode || s.displayDimmed then
      { s with powerSaveMode := false, displayDimmed := false }
    else s
  if s.deepSleepEnabled then { s with deepSleepEnabled := false } else s

/-- The enterDeepSleep routine (main.cpp lines 2398-2458).  The Bool
result records whether hardware deep sleep was actually started
(esp_deep_sleep_start reached); each guard returns early without
sleeping. -/
def enterDeepSleep (now : Nat) (s : DeviceState) : DeviceState × Bool :=
  if s.batteryPercent ≤ 5 then ({ s with deepSleepEnabled := false }, false)
  else if now < 300000 then (s, false)
  else if s.isPreview || s.isProgram then (s, false)
  else (s, true)

/-- Mutual-exclusion invariant of TallyState: program implies
not-preview. -/
def tallyExclusive (s : DeviceState) : Prop :=
  s.isProgram = true → s.isPreview = false

/-! ## Theorems -/

/-- Helper: updateBatteryStatus never touches the power-save flag. -/
theorem updateBatteryStatus_powerSaveMode (now mV : Nat) (cur : Int)
    (s : DeviceState) :
    (updateBatteryStatus now mV cur s).powerSaveMode = s.powerSaveMode := by
  unfold updateBatteryStatus
  split <;> rfl

/-- Helper: updateBatteryStatus never touches the display-dim flag. -/
theorem updateBatteryStatus_displayDimmed (now mV : Nat) (cur : Int)
    (s : DeviceState) :
    (updateBatteryStatus now mV cur s).displayDimmed = s.displayDimmed := by
  unfold updateBatteryStatus
  split <;> rfl

/-- C5: a POST to /api/tally with no body is answered 400 with the No data
error body, a body that fails JSON parsing is answered 400 with the
Invalid JSON error body, and in both cases the device state is returned
unchanged; a successfully parsed payload is answered 200 success and the
state update is exactly applyTallyPayload. -/
theorem api_tally_protocol_errors :
    ∀ s : DeviceState,
      apiTallyHandler .noBody s = (⟨400, "\x7b\"error\":\"No data\"\x7d"⟩, s) ∧
      apiTallyHandler .malformed s =
        (⟨400, "\x7b\"error\":\"Invalid JSON\"\x7d"⟩, s) ∧
      ∀ p, apiTallyHandler (.parsed p) s =
        (⟨200, "\x7b\"success\":true\x7d"⟩, applyTallyPayload p s) :=
  fun _ => ⟨rfl, rfl, fun _ => rfl⟩

/-- C4: enterDeepSleep never starts hardware sleep while the device is in
program or preview, while the battery percent is at most 5, or within the
first five minutes of uptime. -/
theorem deep_sleep_gated :
    ∀ (now : Nat) (s : DeviceState),
      s.isProgram = true ∨ s.isPreview = true ∨
        s.batteryPercent ≤ 5 ∨ now < 300000 →
      (enterDeepSleep now s).2 = false := by
  intro now s h
  unfold enterDeepSleep
  split
  · rfl
  · split
    · rfl
    · split
      · rfl
      · rename_i h1 h2 h3
        exfalso
        rcases h with h | h | h | h
        · exact h3 (by simp [h])
        · exact h3 (by simp [h])
        · exact h1 h
        · exact h2 h

/-- Witness for deep_sleep_gated at a concrete input. -/
theorem deep_sleep_gated_witness :
    (enterDeepSleep 0 initialState).2 = false :=
  deep_sleep_gated 0 initialState (Or.inr (Or.inr (Or.inr (by decide))))

/-- C8: an implausible battery voltage (below 2.5V or above 5.0V) makes
updateBatteryStatus fall back to 50 percent with deep sleep disabled and
every other field unchanged; the update is a total function, so the fault
never escapes as a crash. -/
theorem battery_sensor_fault_safe :
    ∀ (now mV : Nat) (cur : Int) (s : DeviceState),
      mV < 2500 ∨ 5000 < mV →
      updateBatteryStatus now mV cur s =
        { s with batteryPercent := 50, deepSleepEnabled := false } := by
  intro now mV cur s h
  unfold updateBatteryStatus
  rw [if_pos h]

/-- Witness for battery_sensor_fault_safe at 2.0V. -/
theorem battery_sensor_fault_safe_witness :
    updateBatteryStatus 0 2000 0 initialState =
      { initialState with batteryPercent := 50, deepSleepEnabled := false } :=
  battery_sensor_fault_safe 0 2000 0 initialState (Or.inl (by decide))

/-- C10: whenever the LED is manually disabled, updateLED drives the LED
pin to off and clears the logical LED state, regardless of tally,
connectivity, or any other input. -/
theorem led_disabled_override :
    ∀ (now : Nat) (wifiUp : Bool) (s : DeviceState) (ls : LedLocals),
      s.ledManuallyDisabled = true →
      (updateLED now wifiUp s ls).1 = some false ∧
      (updateLED now wifiUp s ls).2.ledState = false := by
  intro now wifiUp s ls h
  unfold updateLED
  rw [if_pos h]
  exact ⟨rfl, rfl⟩

/-- Witness for led_disabled_override with program active. -/
theorem led_disabled_override_witness :
    (updateLED 0 true
      { initialState with ledManuallyDisabled := true, isProgram := true }
      ⟨0, true⟩).1 = some false :=
  (led_disabled_override 0 true
    { initialState with ledManuallyDisabled := true, isProgram := true }
    ⟨0, true⟩ rfl).1

/-- C7: the anti-jitter smoothing rejects a swing of more than 20 points
to an exact 0 percent while the voltage is above 3.0V, keeping the prior
percent, and accepts a 0 percent reading at or below 3.0V; in particular
a prior 80 percent with a new 0 percent stays 80 at 3.5V and becomes 0 at
2.9V, and the full battery update at 2.9V from a prior 80 percent ends at
0 percent. -/
theorem battery_anti_jitter :
    (∀ prev newP mV : Nat, 20 < Nat.dist newP prev → newP = 0 → 3000 < mV →
        smoothBatteryPercent prev newP mV = prev) ∧
    (∀ prev mV : Nat, mV ≤ 3000 → smoothBatteryPercent prev 0 mV = 0) ∧
    smoothBatteryPercent 80 0 3500 = 80 ∧
    smoothBatteryPercent 80 0 2900 = 0 ∧
    (updateBatteryStatus 100000 2900 0
      { initialState with batteryPercent := 80 }).batteryPercent = 0 := by
  refine ⟨?_, ?_, by decide, by decide, by decide⟩
  · intro prev newP mV h1 h2 h3
    unfold smoothBatteryPercent
    rw [if_pos ⟨h1, h2, h3⟩]
  · intro prev mV h
    unfold smoothBatteryPercent
    rw [if_neg]
    rintro ⟨-, -, h3⟩
    omega

/-- Witness for battery_anti_jitter at concrete inputs. -/
theorem battery_anti_jitter_witness :
    smoothBatteryPercent 50 0 3100 = 50 ∧ smoothBatteryPercent 42 0 2800 = 0 :=
  ⟨battery_anti_jitter.1 50 0 3100 (by decide) rfl (by decide),
   battery_anti_jitter.2.1 42 2800 (by decide)⟩

/-- C9: every completed evaluation of updatePowerState (one that passes
the 15-second rate limit) ends with the power-save, display-dim and
deep-sleep flags all off, and the same holds after initPowerManagement and
after every preventRestartConditions pass. -/
theorem power_flags_forced_off :
    (∀ (now lpsu lbu mV : Nat) (cur : Int) (s : DeviceState),
        15000 ≤ now - lpsu →
        (updatePowerState now lpsu lbu mV cur s).1.powerSaveMode = false ∧
        (updatePowerState now lpsu lbu mV cur s).1.displayDimmed = false ∧
        (updatePowerState now lpsu lbu mV cur s).1.deepSleepEnabled = false) ∧
    (∀ (now mV : Nat) (cur : Int) (s : DeviceState),
        (initPowerManagement now mV cur s).powerSaveMode = false ∧
        (initPowerManagement now mV cur s).displayDimmed = false ∧
        (initPowerManagement now mV cur s).deepSleepEnabled = false) ∧
    (∀ s : DeviceState,
        (preventRestartConditions s).powerSaveMode = false ∧
        (preventRestartConditions s).displayDimmed = false ∧
        (preventRestartConditions s).deepSleepEnabled = false) := by
  refine ⟨?_, ?_, ?_⟩
  · intro now lpsu lbu mV cur s h
    unfold updatePowerState
    rw [if_neg (by omega)]
    exact ⟨rfl, rfl, rfl⟩
  · intro now mV cur s
    unfold initPowerManagement
    refine ⟨?_, ?_, rfl⟩
    · rw [updateBatteryStatus_powerSaveMode]
    · rw [updateBatteryStatus_displayDimmed]
  · intro s
    by_cases h1 : (s.powerSaveMode || s.displayDimmed) = true <;>
      by_cases h2 : s.deepSleepEnabled = true <;>
        simp_all [preventRestartConditions, h1, h2]

/-- Witness for power_flags_forced_off at a concrete completed tick. -/
theorem power_flags_forced_off_witness :
    (updatePowerState 20000 0 0 3700 0 initialState).1.powerSaveMode = false :=
  (power_flags_forced_off.1 20000 0 0 3700 0 initialState (by decide)).1

/-- C3: whenever sendHeartbeat actually issues the heartbeat POST and the
response code is 404, the resulting state has the registration flag and
the server-connected flag cleared, regardless of their prior values. -/
theorem heartbeat_404_clears_registration :
    ∀ (wifiUp hasServer : Bool) (regResult : Option Nat)
      (body : Option HBResponse) (now : Nat) (s : DeviceState),
      HttpReq.heartbeat ∈
        (sendHeartbeat wifiUp hasServer regResult (some (404, body)) now s).2 →
      (sendHeartbeat wifiUp hasServer regResult
        (some (404, body)) now s).1.isRegistered = false ∧
      (sendHeartbeat wifiUp hasServer regResult
        (some (404, body)) now s).1.serverConnected = false := by
  intro wifiUp hasServer regResult body now s hmem
  unfold sendHeartbeat at hmem ⊢
  by_cases hg : (!wifiUp || !hasServer) = true
  · rw [if_pos hg] at hmem
    simp at hmem
  · rw [if_neg hg] at hmem ⊢
    by_cases hr :
        (!(if !s.isRegistered then
            registerDevice wifiUp hasServer regResult s
          else s).isRegistered) = true
    · rw [if_pos hr] at hmem
      exfalso
      by_cases hu : (!s.isRegistered) = true <;> simp [hu] at hmem
    · rw [if_neg hr]
      exact ⟨rfl, rfl⟩

/-- Witness for heartbeat_404_clears_registration at a concrete exchange. -/
theorem heartbeat_404_clears_registration_witness :
    (sendHeartbeat true true none (some (404, none)) 7000
      { initialState with isRegistered := true, serverConnected := true
        }).1.isRegistered = false :=
  (heartbeat_404_clears_registration true true none none 7000
    { initialState with isRegistered := true, serverConnected := true }
    (by decide)).1

/-- C2 counterexample: with WiFi up, a server configured, the device
unregistered, and a registration POST that succeeds (HTTP 200),
sendHeartbeat issues the heartbeat POST within the same invocation — the
claim that an invocation starting with registered == false never issues a
request to /api/heartbeat is false on the code. -/
theorem heartbeat_sent_when_unregistered :
    initialState.isRegistered = false ∧
    (sendHeartbeat true true (some 200) (some (200, none)) 5000
        initialState).2 = [HttpReq.register, HttpReq.heartbeat] := by
  exact ⟨rfl, rfl⟩

/-- C2 amended: when sendHeartbeat runs while registered == false (WiFi
up, server configured), exactly one register call is issued; if the
registration fails the function returns the registration result without
issuing a heartbeat request, and if the registration succeeds the
heartbeat request is issued within the same invocation. -/
theorem heartbeat_unregistered_registers_first :
    ∀ (regResult : Option Nat) (hbResult : Option (Nat × Option HBResponse))
      (now : Nat) (s : DeviceState),
      s.isRegistered = false →
      ((registerDevice true true regResult s).isRegistered = false →
        sendHeartbeat true true regResult hbResult now s =
          (registerDevice true true regResult s, [HttpReq.register])) ∧
      ((registerDevice true true regResult s).isRegistered = true →
        (sendHeartbeat true true regResult hbResult now s).2 =
          [HttpReq.register, HttpReq.heartbeat]) := by
  intro regResult hbResult now s hur
  constructor
  · intro hfail
    unfold sendHeartbeat
    simp [hur, hfail]
  · intro hok
    unfold sendHeartbeat
    simp [hur, hok]

/-- Witness for heartbeat_unregistered_registers_first: a failed
registration (HTTP 500) issues only the register request. -/
theorem heartbeat_unregistered_registers_first_witness :
    sendHeartbeat true true (some 500) (some (200, none)) 5000 initialState =
      (registerDevice true true (some 500) initialState, [HttpReq.register]) :=
  (heartbeat_unregistered_registers_first (some 500) (some (200, none)) 5000
    initialState rfl).1 rfl

/-- Helper: the tally handler's program flag is exactly the status test. -/
theorem applyTallyPayload_isProgram (p : TallyPayload) (s : DeviceState) :
    (applyTallyPayload p s).isProgram =
      ((p.status == some "Live") || (p.status == some "Program")) := by
  unfold applyTallyPayload
  cases p.deviceName <;> cases p.assignedSource <;> dsimp <;> (try split) <;> rfl

/-- Helper: the tally handler's preview flag is exactly the status test. -/
theorem applyTallyPayload_isPreview (p : TallyPayload) (s : DeviceState) :
    (applyTallyPayload p s).isPreview = (p.status == some "Preview") := by
  unfold applyTallyPayload
  cases p.deviceName <;> cases p.assignedSource <;> dsimp <;> (try split) <;> rfl

/-- Helper: the non-status field updates of a heartbeat response leave the
program flag untouched. -/
theorem applyHBFields_isProgram (r : HBResponse) (s : DeviceState) :
    (applyHBFields r s).isProgram =
      (applyHBStatus (extractStatus r.status) s).isProgram := by
  unfold applyHBFields
  cases r.assignedSource <;> cases r.recording <;> cases r.streaming <;>
    dsimp <;> (repeat' split) <;> rfl

/-- Helper: the non-status field updates of a heartbeat response leave the
preview flag untouched. -/
theorem applyHBFields_isPreview (r : HBResponse) (s : DeviceState) :
    (applyHBFields r s).isPreview =
      (applyHBStatus (extractStatus r.status) s).isPreview := by
  unfold applyHBFields
  cases r.assignedSource <;> cases r.recording <;> cases r.streaming <;>
    dsimp <;> (repeat' split) <;> rfl

/-- Helper: the status update preserves program-implies-not-preview. -/
theorem applyHBStatus_exclusive (ns : String) (s : DeviceState)
    (h : tallyExclusive s) : tallyExclusive (applyHBStatus ns s) := by
  unfold tallyExclusive at *
  unfold applyHBStatus
  split
  · split
    · simp
    · split <;> simp
  · exact h

/-- Helper: handling a 200 heartbeat body preserves the invariant. -/
theorem applyHeartbeatBody_exclusive (body : Option HBResponse)
    (s : DeviceState) (h : tallyExclusive s) :
    tallyExclusive (applyHeartbeatBody body s) := by
  cases body with
  | none => exact h
  | some r =>
    unfold tallyExclusive
    intro hp
    have hp' : (applyHBStatus (extractStatus r.status) s).isProgram = true := by
      rw [← applyHBFields_isProgram]
      exact hp
    have hv := applyHBStatus_exclusive (extractStatus r.status) s h hp'
    show (applyHBFields r s).isPreview = false
    rw [applyHBFields_isPreview]
    exact hv

/-- Helper: registerDevice never touches the program flag. -/
theorem registerDevice_isProgram (w hs : Bool) (rr : Option Nat)
    (s : DeviceState) : (registerDevice w hs rr s).isProgram = s.isProgram := by
  unfold registerDevice
  split
  · rfl
  · cases rr <;> dsimp <;> (try split) <;> rfl

/-- Helper: registerDevice never touches the preview flag. -/
theorem registerDevice_isPreview (w hs : Bool) (rr : Option Nat)
    (s : DeviceState) : (registerDevice w hs rr s).isPreview = s.isPreview := by
  unfold registerDevice
  split
  · rfl
  · cases rr <;> dsimp <;> (try split) <;> rfl

/-- Helper: a full sendHeartbeat pass preserves the invariant. -/
theorem sendHeartbeat_exclusive (w hs : Bool) (rr : Option Nat)
    (hb : Option (Nat × Option HBResponse)) (now : Nat) (s : DeviceState)
    (h : tallyExclusive s) :
    tallyExclusive (sendHeartbeat w hs rr hb now s).1 := by
  have hreg : tallyExclusive (registerDevice w hs rr s) := by
    unfold tallyExclusive at *
    rw [registerDevice_isProgram, registerDevice_isPreview]
    exact h
  unfold sendHeartbeat
  by_cases hg : (!w || !hs) = true
  · simp only [hg, if_true]
    exact h
  · simp only [hg, Bool.false_eq_true, if_false]
    by_cases hu : s.isRegistered = true
    · simp only [hu, Bool.not_true, Bool.false_eq_true, if_false]
      cases hb with
      | none => exact h
      | some p =>
        obtain ⟨n, body⟩ := p
        dsimp only
        by_cases h200 : n = 200
        · simp only [h200, if_true, reduceIte]
          have := applyHeartbeatBody_exclusive body s h
          unfold tallyExclusive at this ⊢
          exact this
        · by_cases h404 : n = 404 <;>
            simp only [h200, h404, reduceIte] <;> exact h
    · have hu' : s.isRegistered = false := by
        cases hx : s.isRegistered
        · rfl
        · exact absurd hx hu
      simp only [hu', Bool.not_false, if_true]
      by_cases hr : (registerDevice w hs rr s).isRegistered = true
      · simp only [hr, Bool.not_true, Bool.false_eq_true, if_false]
        cases hb with
        | none => exact hreg
        | some p =>
          obtain ⟨n, body⟩ := p
          dsimp only
          by_cases h200 : n = 200
          · simp only [h200, reduceIte]
            have := applyHeartbeatBody_exclusive body
              (registerDevice w hs rr s) hreg
            unfold tallyExclusive at this ⊢
            exact this
          · by_cases h404 : n = 404 <;>
              simp only [h200, h404, reduceIte] <;> exact hreg
      · have hr' : (registerDevice w hs rr s).isRegistered = false := by
          cases hx : (registerDevice w hs rr s).isRegistered
          · rfl
          · exact absurd hx hr
        simp only [hr', Bool.not_false, if_true]
        exact hreg

/-- C1: tally mutual exclusion.  After the /api/tally handler applies a
payload, a status of Live or Program yields program true and preview
false, Preview yields preview true and program false, any other (or
missing) status yields both false, and program implies not-preview holds
unconditionally; the heartbeat status update maps status strings the same
way, and both the status update and a full sendHeartbeat pass preserve
program-implies-not-preview for every state already satisfying it. -/
theorem tally_mutual_exclusion :
    (∀ (p : TallyPayload) (s : DeviceState),
        tallyExclusive (applyTallyPayload p s)) ∧
    (∀ (p : TallyPayload) (s : DeviceState),
        p.status = some "Live" ∨ p.status = some "Program" →
        (applyTallyPayload p s).isProgram = true ∧
        (applyTallyPayload p s).isPreview = false) ∧
    (∀ (p : TallyPayload) (s : DeviceState),
        p.status = some "Preview" →
        (applyTallyPayload p s).isPreview = true ∧
        (applyTallyPayload p s).isProgram = false) ∧
    (∀ (p : TallyPayload) (s : DeviceState),
        p.status ≠ some "Live" → p.status ≠ some "Program" →
        p.status ≠ some "Preview" →
        (applyTallyPayload p s).isProgram = false ∧
        (applyTallyPayload p s).isPreview = false) ∧
    (∀ (ns : String) (s : DeviceState),
        ns = "Live" ∨ ns = "Program" →
        (applyHBStatus ns s).isProgram = true ∧
        (applyHBStatus ns s).isPreview = false) ∧
    (∀ (ns : String) (s : DeviceState),
        ns = "Preview" →
        (applyHBStatus ns s).isPreview = true ∧
        (applyHBStatus ns s).isProgram = false) ∧
    (∀ (ns : String) (s : DeviceState),
        0 < ns.length → ns ≠ "Live" → ns ≠ "Program" → ns ≠ "Preview" →
        (applyHBStatus ns s).isProgram = false ∧
        (applyHBStatus ns s).isPreview = false) ∧
    (∀ (ns : String) (s : DeviceState),
        tallyExclusive s → tallyExclusive (applyHBStatus ns s)) ∧
    (∀ (w hs : Bool) (rr : Option Nat)
        (hb : Option (Nat × Option HBResponse)) (now : Nat) (s : DeviceState),
        tallyExclusive s → tallyExclusive (sendHeartbeat w hs rr hb now s).1) := by
  refine ⟨?_, ?_, ?_, ?_, ?_, ?_, ?_,
    applyHBStatus_exclusive, sendHeartbeat_exclusive⟩
  · intro p s
    unfold tallyExclusive
    rw [applyTallyPayload_isProgram, applyTallyPayload_isPreview]
    intro hp
    simp only [Bool.or_eq_true, beq_iff_eq] at hp
    rcases hp with h | h <;> rw [h] <;> decide
  · intro p s hp
    rw [applyTallyPayload_isProgram, applyTallyPayload_isPreview]
    rcases hp with h | h <;> rw [h] <;> exact ⟨by decide, by decide⟩
  · intro p s hp
    rw [applyTallyPayload_isProgram, applyTallyPayload_isPreview, hp]
    exact ⟨by decide, by decide⟩
  · intro p s h1 h2 h3
    rw [applyTallyPayload_isProgram, applyTallyPayload_isPreview]
    constructor
    · simp only [Bool.or_eq_false_iff, beq_eq_false_iff_ne]
      exact ⟨h1, h2⟩
    · simp only [beq_eq_false_iff_ne]
      exact h3
  · intro ns s hp
    rcases hp with h | h <;> subst h <;> exact ⟨rfl, rfl⟩
  · intro ns s hp
    subst hp
    exact ⟨rfl, rfl⟩
  · intro ns s h0 h1 h2 h3
    unfold applyHBStatus
    rw [if_pos h0, if_neg, if_neg]
    · exact ⟨rfl, rfl⟩
    · simp only [beq_iff_eq]
      exact h3
    · simp only [Bool.or_eq_true, beq_iff_eq, not_or]
      exact ⟨h1, h2⟩

/-- Witness for tally_mutual_exclusion on a concrete Live payload and a
concrete heartbeat pass. -/
theorem tally_mutual_exclusion_witness :
    ((applyTallyPayload
        ⟨some "Live", none, none, none, none, none, none, none⟩
        initialState).isProgram = true ∧
      (applyTallyPayload
        ⟨some "Live", none, none, none, none, none, none, none⟩
        initialState).isPreview = false) ∧
    tallyExclusive
      (sendHeartbeat true true none (some (200, none)) 900
        initialState).1 :=
  ⟨tally_mutual_exclusion.2.1
      ⟨some "Live", none, none, none, none, none, none, none⟩
      initialState (Or.inl rfl),
   tally_mutual_exclusion.2.2.2.2.2.2.2.2 true true none (some (200, none))
      900 initialState (fun hp => by simp [initialState] at hp)⟩

set_option maxRecDepth 40000 in
/-- Helper: adjacent monotonicity of the band curve on 2500..2899 mV. -/
theorem band_adjacent_chunk0 :
    ∀ k ∈ List.range 400,
      batteryBandPercent (2500 + k) ≤ batteryBandPercent (2500 + k + 1) := by
  decide

set_option maxRecDepth 40000 in
/-- Helper: adjacent monotonicity of the band curve on 2900..3299 mV. -/
theorem band_adjacent_chunk1 :
    ∀ k ∈ List.range 400,
      batteryBandPercent (2900 + k) ≤ batteryBandPercent (2900 + k + 1) := by
  decide

set_option maxRecDepth 40000 in
/-- Helper: adjacent monotonicity of the band curve on 3300..3699 mV. -/
theorem band_adjacent_chunk2 :
    ∀ k ∈ List.range 400,
      batteryBandPercent (3300 + k) ≤ batteryBandPercent (3300 + k + 1) := by
  decide

set_option maxRecDepth 40000 in
/-- Helper: adjacent monotonicity of the band curve on 3700..4099 mV. -/
theorem band_adjacent_chunk3 :
    ∀ k ∈ List.range 400,
      batteryBandPercent (3700 + k) ≤ batteryBandPercent (3700 + k + 1) := by
  decide

/-- Helper: the band curve is 100 from 4.1V up. -/
theorem batteryBandPercent_high (v : Nat) (h : 4100 ≤ v) :
    batteryBandPercent v = 100 := by
  unfold batteryBandPercent computeNewPercent
  rw [if_pos h]
  decide

/-- Helper: one-step monotonicity of the band curve on the plausible
range. -/
theorem band_adjacent (v : Nat) (h1 : 2500 ≤ v) (h2 : v < 5000) :
    batteryBandPercent v ≤ batteryBandPercent (v + 1) := by
  by_cases h : v < 4100
  · by_cases c0 : v < 2900
    · have hm := band_adjacent_chunk0 (v - 2500) (List.mem_range.mpr (by omega))
      have e : 2500 + (v - 2500) = v := by omega
      rw [e] at hm
      exact hm
    · by_cases c1 : v < 3300
      · have hm := band_adjacent_chunk1 (v - 2900) (List.mem_range.mpr (by omega))
        have e : 2900 + (v - 2900) = v := by omega
        rw [e] at hm
        exact hm
      · by_cases c2 : v < 3700
        · have hm := band_adjacent_chunk2 (v - 3300) (List.mem_range.mpr (by omega))
          have e : 3300 + (v - 3300) = v := by omega
          rw [e] at hm
          exact hm
        · have hm := band_adjacent_chunk3 (v - 3700) (List.mem_range.mpr (by omega))
          have e : 3700 + (v - 3700) = v := by omega
          rw [e] at hm
          exact hm
  · rw [batteryBandPercent_high v (by omega),
      batteryBandPercent_high (v + 1) (by omega)]

/-- Helper: monotonicity of the band curve on the plausible range. -/
theorem batteryBandPercent_mono (v w : Nat) (h1 : 2500 ≤ v) (hvw : v ≤ w)
    (h2 : w ≤ 5000) : batteryBandPercent v ≤ batteryBandPercent w := by
  revert h2
  induction w, hvw using Nat.le_induction with
  | base => intro _; exact le_refl _
  | succ w hw ih =>
    intro h2
    exact le_trans (ih (by omega)) (band_adjacent w (by omega) (by omega))

/-- C6: the classifier's voltage-to-percent curve is monotone
non-decreasing over the plausible range 2.5V-5.0V and clamped to 0..100;
4.15V maps to 100 and 3.70V maps into 60..85; and in the absence of
charging-history effects (not charging, no recent full-charge disconnect)
updateBatteryStatus computes its percent exactly as this curve followed by
the anti-jitter smoothing step. -/
theorem battery_curve_spec :
    (∀ v w : Nat, 2500 ≤ v → v ≤ w → w ≤ 5000 →
        batteryBandPercent v ≤ batteryBandPercent w) ∧
    (∀ v : Nat, batteryBandPercent v ≤ 100) ∧
    batteryBandPercent 4150 = 100 ∧
    (60 ≤ batteryBandPercent 3700 ∧ batteryBandPercent 3700 ≤ 85) ∧
    (∀ (now mV : Nat) (cur : Int) (s : DeviceState),
        2500 ≤ mV → mV ≤ 5000 → cur ≤ 1000 →
        s.wasChargingComplete = false →
        30000 ≤ now - s.lastDisconnectTime →
        (updateBatteryStatus now mV cur s).batteryPercent =
          smoothBatteryPercent s.batteryPercent (batteryBandPercent mV) mV) := by
  refine ⟨batteryBandPercent_mono, ?_, by decide, by decide, ?_⟩
  · intro v
    unfold batteryBandPercent computeNewPercent
    exact Nat.min_le_right _ _
  · intro now mV cur s hmv1 hmv2 hcur hwc hdt
    unfold updateBatteryStatus
    rw [if_neg (by omega)]
    have hic : decide (1000 < cur) = false :=
      decide_eq_false_iff_not.mpr (by omega)
    have hmt : decide (now - s.lastDisconnectTime < 30000) = false :=
      decide_eq_false_iff_not.mpr (by omega)
    simp only [hwc, hic, hmt, Bool.false_and, Bool.and_false, Bool.not_false,
      Bool.false_or, Bool.or_false, Bool.false_eq_true, if_false,
      Bool.and_self]
    rfl

/-- Witness for battery_curve_spec at concrete voltages and a concrete
battery update. -/
theorem battery_curve_spec_witness :
    batteryBandPercent 3100 ≤ batteryBandPercent 4000 ∧
    (updateBatteryStatus 50000 3700 0 initialState).batteryPercent =
      smoothBatteryPercent initialState.batteryPercent
        (batteryBandPercent 3700) 3700 :=
  ⟨battery_curve_spec.1 3100 4000 (by decide) (by decide) (by decide),
   battery_curve_spec.2.2.2.2 50000 3700 0 initialState (by decide)
     (by decide) (by decide) rfl (by decide)⟩
